import Mathlib

/-! Shallow embedding of the PureRef2Blender add-on (file Pureref2Blender.py)
together with proofs of properties stated in its specification.

Modelling conventions:
* Python floats are modelled as real numbers.
* mathutils.Vector of length 3 is Vec3; a 3x3 mathutils.Matrix is Mat3,
  stored by rows exactly as in the Python constructor Matrix((row1, row2, row3));
  4x4 world and view matrices are Mathlib matrices over the reals (Mat4),
  so that Matrix.inverted is the genuine matrix inverse.
* The slice of the Blender and PIL host API that the add-on touches is
  modelled by explicit data (Host, BContext).  The two operator execute
  methods become pure functions from that data to an OpResult record that
  also keeps an observational trace of what the code did: reports sent to
  the UI, the paths handed to PIL Image.save, and the attribute writes
  performed on the newly created scene object. -/

noncomputable section

/-- A 3d mathutils.Vector. -/
structure Vec3 where
  x : ℝ
  y : ℝ
  z : ℝ

/-- The zero vector Vector((0, 0, 0)). -/
def Vec3.zero : Vec3 := ⟨0, 0, 0⟩

/-- Componentwise vector addition. -/
def Vec3.add (a b : Vec3) : Vec3 := ⟨a.x + b.x, a.y + b.y, a.z + b.z⟩

/-- Componentwise vector subtraction. -/
def Vec3.sub (a b : Vec3) : Vec3 := ⟨a.x - b.x, a.y - b.y, a.z - b.z⟩

/-- Vector negation, mathutils unary minus. -/
def Vec3.neg (v : Vec3) : Vec3 := ⟨-v.x, -v.y, -v.z⟩

/-- Vector times scalar, the Python expression v * c. -/
def Vec3.smul (v : Vec3) (c : ℝ) : Vec3 := ⟨v.x * c, v.y * c, v.z * c⟩

/-- mathutils Vector.dot. -/
def Vec3.dot (a b : Vec3) : ℝ := a.x * b.x + a.y * b.y + a.z * b.z

/-- mathutils Vector.cross. -/
def Vec3.cross (a b : Vec3) : Vec3 :=
  ⟨a.y * b.z - a.z * b.y, a.z * b.x - a.x * b.z, a.x * b.y - a.y * b.x⟩

/-- Euclidean length of a vector, mathutils Vector.length. -/
def Vec3.norm (v : Vec3) : ℝ := Real.sqrt (v.dot v)

/-- mathutils Vector.normalized(): divide each component by the length.
For the zero vector mathutils returns the zero vector, which agrees with
real division by zero being zero. -/
def Vec3.normalized (v : Vec3) : Vec3 := ⟨v.x / v.norm, v.y / v.norm, v.z / v.norm⟩

instance : Add Vec3 := ⟨Vec3.add⟩

instance : Sub Vec3 := ⟨Vec3.sub⟩

/-- A 3x3 mathutils.Matrix, stored by rows as in Matrix((row1, row2, row3)). -/
structure Mat3 where
  r1 : Vec3
  r2 : Vec3
  r3 : Vec3

/-- mathutils Matrix.transposed() for 3x3 matrices. -/
def Mat3.transposed (m : Mat3) : Mat3 :=
  ⟨⟨m.r1.x, m.r2.x, m.r3.x⟩, ⟨m.r1.y, m.r2.y, m.r3.y⟩, ⟨m.r1.z, m.r2.z, m.r3.z⟩⟩

/-- Matrix times column vector, the Python expression m @ v. -/
def Mat3.mulVec (m : Mat3) (v : Vec3) : Vec3 := ⟨m.r1.dot v, m.r2.dot v, m.r3.dot v⟩

/-- Matrix product of two 3x3 matrices. -/
def Mat3.mul (a b : Mat3) : Mat3 :=
  let bt := b.transposed
  ⟨⟨a.r1.dot bt.r1, a.r1.dot bt.r2, a.r1.dot bt.r3⟩,
   ⟨a.r2.dot bt.r1, a.r2.dot bt.r2, a.r2.dot bt.r3⟩,
   ⟨a.r3.dot bt.r1, a.r3.dot bt.r2, a.r3.dot bt.r3⟩⟩

/-- The 3x3 identity matrix. -/
def Mat3.id : Mat3 := ⟨⟨1, 0, 0⟩, ⟨0, 1, 0⟩, ⟨0, 0, 1⟩⟩

/-- An Euler rotation triple (mathutils.Euler, XYZ order). -/
structure Euler where
  x : ℝ
  y : ℝ
  z : ℝ

/-- Two-argument arctangent, modelling C atan2f used by mathutils. -/
def atan2 (y x : ℝ) : ℝ :=
  if 0 < x then Real.arctan (y / x)
  else if x < 0 then
    (if 0 ≤ y then Real.arctan (y / x) + Real.pi else Real.arctan (y / x) - Real.pi)
  else (if 0 < y then Real.pi / 2 else if y < 0 then -(Real.pi / 2) else 0)

/-- Models the external mathutils Matrix.to_euler() conversion (default XYZ
order; Blender first normalizes the basis vectors and then runs
mat3_normalized_to_eul).  The theorems below never depend on the numeric
values this produces, only on it being a function of the matrix. -/
def Mat3.to_euler (m : Mat3) : Euler :=
  let n : Mat3 := ⟨m.r1.normalized, m.r2.normalized, m.r3.normalized⟩
  let cy := Real.sqrt (n.r1.x * n.r1.x + n.r1.y * n.r1.y)
  if 0.000001 < cy then
    ⟨atan2 n.r2.z n.r3.z, atan2 (-n.r1.z) cy, atan2 n.r1.y n.r1.x⟩
  else
    ⟨atan2 (-n.r3.y) n.r2.y, atan2 (-n.r1.z) cy, 0⟩

/-- A 4x4 Blender world or view matrix. -/
abbrev Mat4 := Matrix (Fin 4) (Fin 4) ℝ

/-- mathutils Matrix.to_3x3(): the upper left 3x3 block. -/
def Mat4.to_3x3 (m : Mat4) : Mat3 :=
  ⟨⟨m 0 0, m 0 1, m 0 2⟩, ⟨m 1 0, m 1 1, m 1 2⟩, ⟨m 2 0, m 2 1, m 2 2⟩⟩

/-- mathutils Matrix.translation: the first three entries of the last column. -/
def Mat4.translation (m : Mat4) : Vec3 := ⟨m 0 3, m 1 3, m 2 3⟩

/-- mathutils Matrix.inverted() for an invertible 4x4 matrix (mathutils
raises on a singular matrix; view matrices are always invertible). -/
def Mat4.inverted (m : Mat4) : Mat4 := m⁻¹

/-- Lines 51-53 of get_camera_facing_position:
forward = (camera_matrix.to_3x3() @ Vector((0, 0, -1))).normalized(). -/
def camera_forward (camera_matrix : Mat4) : Vec3 :=
  ((Mat4.to_3x3 camera_matrix).mulVec ⟨0, 0, -1⟩).normalized

/-- Lines 56-57 of get_camera_facing_position:
position = camera_matrix.translation + forward * distance. -/
def camera_facing_pos (camera_matrix : Mat4) (distance : ℝ) : Vec3 :=
  Mat4.translation camera_matrix + (camera_forward camera_matrix).smul distance

/-- Line 61 of get_camera_facing_position:
direction = (camera_location - position).normalized(). -/
def camera_facing_direction (camera_matrix : Mat4) (distance : ℝ) : Vec3 :=
  (Mat4.translation camera_matrix - camera_facing_pos camera_matrix distance).normalized

/-- Lines 64-76 of get_camera_facing_position: the branch on
abs(direction.z) < 0.999 choosing right and up, then
rotation_matrix = Matrix((right, up, -direction)).transposed(). -/
def facing_rotation_matrix (direction : Vec3) : Mat3 :=
  if |direction.z| < 0.999 then
    let up0 : Vec3 := ⟨0, 0, 1⟩
    let right := (direction.cross up0).normalized
    let up := (right.cross direction).normalized
    Mat3.transposed ⟨right, up, direction.neg⟩
  else
    Mat3.transposed ⟨⟨1, 0, 0⟩, ⟨0, 1, 0⟩, direction.neg⟩

/-- One Blender screen area as far as the add-on reads it: area.type, the
types of its regions, and area.spaces[0].region_3d.view_matrix (a VIEW_3D
area always carries a space with a region_3d). -/
structure ScreenArea where
  atype : String
  region_types : List String
  view_matrix : Mat4

/-- The scene camera object: only its world transform is read. -/
structure CameraObject where
  matrix_world : Mat4

/-- context.scene: the optional scene camera and the 3D cursor location. -/
structure Scene where
  camera : Option CameraObject
  cursor_location : Vec3

/-- A Blender scene object as far as the add-on writes it: an empty of
image display type.  data is the name of the referenced image datablock. -/
structure SceneObject where
  name : String
  location : Vec3
  rotation_euler : Euler
  scale : Vec3
  empty_display_type : String
  data : Option String
  selected : Bool

/-- The execution context handed to the operators: context.screen.areas,
context.scene, the objects of context.collection (the active collection)
and the active object of context.view_layer (identified by name). -/
structure BContext where
  screen_areas : List ScreenArea
  scene : Scene
  collection_objects : List SceneObject
  view_layer_active : Option String

/-- The loop of get_viewport_facing_position (lines 85-88): the first area
of type VIEW_3D that has a region of type WINDOW yields its view matrix;
otherwise the search continues with the remaining areas. -/
def findViewport : List ScreenArea → Option Mat4
  | [] => none
  | a :: rest =>
      if a.atype = "VIEW_3D" ∧ a.region_types.contains "WINDOW" then some a.view_matrix
      else findViewport rest

/-- get_camera_facing_position (lines 39-80).  With no scene camera it
returns position (0,0,0) and rotation (0,0,0); otherwise the position in
front of the camera together with the Euler angles of the facing rotation
matrix. -/
def get_camera_facing_position (ctx : BContext) (distance : ℝ) : Vec3 × Euler :=
  match ctx.scene.camera with
  | none => (⟨0, 0, 0⟩, ⟨0, 0, 0⟩)
  | some camera =>
      (camera_facing_pos camera.matrix_world distance,
       Mat3.to_euler (facing_rotation_matrix (camera_facing_direction camera.matrix_world distance)))

/-- get_viewport_facing_position (lines 82-107). -/
def get_viewport_facing_position (ctx : BContext) (distance : ℝ) : Vec3 × Euler :=
  match findViewport ctx.screen_areas with
  | none => (⟨0, 0, 0⟩, ⟨0, 0, 0⟩)
  | some view_matrix =>
      let inv := Mat4.inverted view_matrix
      let view_location := Mat4.translation inv
      let view_rotation := Mat3.to_euler (Mat4.to_3x3 inv)
      let forward := ((Mat4.to_3x3 inv).mulVec ⟨0, 0, -1⟩).normalized
      (view_location + forward.smul distance, view_rotation)

/-- What PIL ImageGrab.grabclipboard() can return: None, a PIL image (its
format string is kept, it is irrelevant to the code), or a list of file
names; only the image case passes the isinstance(image, Image.Image) test. -/
inductive Clip where
  | empty : Clip
  | image (format : String) : Clip
  | files (paths : List String) : Clip

/-- Outcome of a host call that can raise a (non ImportError) exception;
the exception is carried as its message string str(e). -/
inductive PResult (α : Type) where
  | ok (val : α) : PResult α
  | raise (msg : String) : PResult α

/-- The external world the operators interact with: whether PIL can be
loaded, what the clipboard holds, whether Image.save and
bpy.data.images.load succeed (load returns the name of the image
datablock), and tempfile.gettempdir(). -/
structure Host where
  pillow : Bool
  grab : PResult Clip
  save : PResult Unit
  load : PResult String
  tempdir : String

/-- os.path.join for one relative file name. -/
def joinPath (dir fname : String) : String :=
  if dir = "" then fname
  else if dir.endsWith "/" then dir ++ fname
  else dir ++ "/" ++ fname

/-- The ERROR message of the ImportError handler of both operators. -/
def pillow_error_message : String :=
  "Pillow is not installed. Please install Pillow from the add-on preferences and restart Blender."

/-- Result of running an operator execute: the reports sent through
self.report (level, message), the returned status set, the objects of
context.collection afterwards, the active object of the view layer, the
paths handed to PIL Image.save, and the trace of attribute writes
(object name, attribute) the code performed. -/
structure OpResult where
  reports : List (String × String)
  status : List String
  collection_objects : List SceneObject
  view_layer_active : Option String
  saved_paths : List String
  writes : List (String × String)

/-- PastePureRefImageOperator.execute (lines 119-159). -/
def pastePureRefImage_execute (h : Host) (ctx : BContext) : OpResult :=
  if h.pillow then
    match h.grab with
    | PResult.raise e =>
        { reports := [("ERROR", e)], status := ["FINISHED"],
          collection_objects := ctx.collection_objects,
          view_layer_active := ctx.view_layer_active, saved_paths := [], writes := [] }
    | PResult.ok (Clip.image _fmt) =>
        let temp_path := joinPath h.tempdir "clipboard_image.png"
        match h.save with
        | PResult.raise e =>
            { reports := [("ERROR", e)], status := ["FINISHED"],
              collection_objects := ctx.collection_objects,
              view_layer_active := ctx.view_layer_active,
              saved_paths := [temp_path], writes := [] }
        | PResult.ok _ =>
            match h.load with
            | PResult.raise e =>
                { reports := [("ERROR", e)], status := ["FINISHED"],
                  collection_objects := ctx.collection_objects,
                  view_layer_active := ctx.view_layer_active,
                  saved_paths := [temp_path], writes := [] }
            | PResult.ok imgName =>
                let pr := get_viewport_facing_position ctx 5.0
                let ref : SceneObject :=
                  { name := imgName, location := pr.1, rotation_euler := pr.2,
                    scale := ⟨2.0, 2.0, 1.0⟩, empty_display_type := "IMAGE",
                    data := some imgName, selected := true }
                { reports := [("INFO", "Image pasted from clipboard and positioned in front of viewport")],
                  status := ["FINISHED"],
                  collection_objects := ctx.collection_objects ++ [ref],
                  view_layer_active := some imgName,
                  saved_paths := [temp_path],
                  writes := [(imgName, "empty_display_type"), (imgName, "data"),
                             (imgName, "location"), (imgName, "rotation_euler"),
                             (imgName, "scale")] }
    | PResult.ok _ =>
        { reports := [("WARNING", "No image in clipboard")], status := ["FINISHED"],
          collection_objects := ctx.collection_objects,
          view_layer_active := ctx.view_layer_active, saved_paths := [], writes := [] }
  else
    { reports := [("ERROR", pillow_error_message)], status := ["FINISHED"],
      collection_objects := ctx.collection_objects,
      view_layer_active := ctx.view_layer_active, saved_paths := [], writes := [] }

/-- PastePureRefFromCursorOperator.execute (lines 171-214). -/
def pastePureRefFromCursor_execute (h : Host) (ctx : BContext) : OpResult :=
  if h.pillow then
    match h.grab with
    | PResult.raise e =>
        { reports := [("ERROR", e)], status := ["FINISHED"],
          collection_objects := ctx.collection_objects,
          view_layer_active := ctx.view_layer_active, saved_paths := [], writes := [] }
    | PResult.ok (Clip.image _fmt) =>
        let temp_path := joinPath h.tempdir "clipboard_image.png"
        match h.save with
        | PResult.raise e =>
            { reports := [("ERROR", e)], status := ["FINISHED"],
              collection_objects := ctx.collection_objects,
              view_layer_active := ctx.view_layer_active,
              saved_paths := [temp_path], writes := [] }
        | PResult.ok _ =>
            match h.load with
            | PResult.raise e =>
                { reports := [("ERROR", e)], status := ["FINISHED"],
                  collection_objects := ctx.collection_objects,
                  view_layer_active := ctx.view_layer_active,
                  saved_paths := [temp_path], writes := [] }
            | PResult.ok imgName =>
                let cursor_location := ctx.scene.cursor_location
                let pr := get_viewport_facing_position ctx 0.0
                let ref : SceneObject :=
                  { name := imgName, location := cursor_location, rotation_euler := pr.2,
                    scale := ⟨2.0, 2.0, 1.0⟩, empty_display_type := "IMAGE",
                    data := some imgName, selected := true }
                { reports := [("INFO", "Image pasted from clipboard at cursor position facing user")],
                  status := ["FINISHED"],
                  collection_objects := ctx.collection_objects ++ [ref],
                  view_layer_active := some imgName,
                  saved_paths := [temp_path],
                  writes := [(imgName, "empty_display_type"), (imgName, "data"),
                             (imgName, "location"), (imgName, "rotation_euler"),
                             (imgName, "scale")] }
    | PResult.ok _ =>
        { reports := [("WARNING", "No image in clipboard")], status := ["FINISHED"],
          collection_objects := ctx.collection_objects,
          view_layer_active := ctx.view_layer_active, saved_paths := [], writes := [] }
  else
    { reports := [("ERROR", pillow_error_message)], status := ["FINISHED"],
      collection_objects := ctx.collection_objects,
      view_layer_active := ctx.view_layer_active, saved_paths := [], writes := [] }

/-- The description string of bl_info (line 6): it advertises pasting from
local files as well as from the clipboard. -/
def bl_info_description : String :=
  "Paste images from clipboard or local files into Blender. Supports jpg, png, avif, heic, webp, gif formats."

/-- The bl_idname values of the operator classes passed to
bpy.utils.register_class in register() (lines 229-234). -/
def registered_operator_ids : List String :=
  ["preferences.install_pillow", "image.paste_pureref_image", "image.paste_pureref_from_cursor"]

/-- Replace the 3D cursor location of a context. -/
def setCursor (ctx : BContext) (c : Vec3) : BContext :=
  { ctx with scene := { ctx.scene with cursor_location := c } }

/-- Replace the screen areas of a context. -/
def setAreas (ctx : BContext) (as : List ScreenArea) : BContext :=
  { ctx with screen_areas := as }

/-- Replace the scene camera of a context. -/
def setCamera (ctx : BContext) (c : Option CameraObject) : BContext :=
  { ctx with scene := { ctx.scene with camera := c } }

/-- A camera world matrix looking horizontally along the +Y axis. -/
def M_horizontal : Mat4 := Matrix.of fun i j =>
  match i.val, j.val with
  | 0, 0 => 1 | 1, 2 => -1 | 2, 1 => 1 | 3, 3 => 1 | _, _ => 0

/-- A camera world matrix whose facing direction lands in the degenerate
branch (abs(direction.z) is 2024/2026, just above 0.999) without being a
pure +-Z direction. -/
def M_degenerate : Mat4 := Matrix.of fun i j =>
  match i.val, j.val with
  | 0, 0 => 1 | 0, 2 => -90 | 1, 1 => 1 | 2, 2 => -2024 | 3, 3 => 1 | _, _ => 0

/-- An identity camera rotation placed at x = 100. -/
def M_at100 : Mat4 := Matrix.of fun i j =>
  match i.val, j.val with
  | 0, 0 => 1 | 1, 1 => 1 | 2, 2 => 1 | 3, 3 => 1 | 0, 3 => 100 | _, _ => 0

/-- A concrete context: one VIEW_3D area with a WINDOW region whose view
matrix is the identity, a camera at (100,0,0), cursor at (3,4,7). -/
def ctx0 : BContext :=
  { screen_areas := [{ atype := "VIEW_3D", region_types := ["WINDOW"], view_matrix := 1 }],
    scene := { camera := some { matrix_world := M_at100 }, cursor_location := ⟨3, 4, 7⟩ },
    collection_objects := [],
    view_layer_active := none }

/-- ctx0 with the scene camera removed. -/
def ctx0_nocam : BContext := setCamera ctx0 none

/-- ctx0 with the camera transform of M_horizontal. -/
def ctx0_horizontal : BContext := setCamera ctx0 (some { matrix_world := M_horizontal })

/-- A host on which every call succeeds and the clipboard holds a PNG. -/
def host0 : Host :=
  { pillow := true, grab := PResult.ok (Clip.image "PNG"),
    save := PResult.ok (), load := PResult.ok "clipboard_image.png",
    tempdir := "/tmp" }

/-- host0 with a different clipboard image format. -/
def host0_gif : Host := { host0 with grab := PResult.ok (Clip.image "GIF") }

/-- A host without the Pillow dependency. -/
def host_noPillow : Host := { host0 with pillow := false }

/-- A host whose clipboard is empty. -/
def host_emptyClip : Host := { host0 with grab := PResult.ok Clip.empty }

end

/-! Basic facts about the embedded vector arithmetic. -/

theorem Vec3.dot_self_nonneg (v : Vec3) : 0 ≤ v.dot v := by
  have hx := mul_self_nonneg v.x
  have hy := mul_self_nonneg v.y
  have hz := mul_self_nonneg v.z
  unfold Vec3.dot
  linarith

theorem Vec3.norm_mul_self (v : Vec3) : v.norm * v.norm = v.dot v :=
  Real.mul_self_sqrt v.dot_self_nonneg

theorem Vec3.dot_self_pos (v : Vec3) (h : v ≠ Vec3.zero) : 0 < v.dot v := by
  rcases lt_or_eq_of_le v.dot_self_nonneg with hlt | heq
  · exact hlt
  · exfalso
    apply h
    obtain ⟨x, y, z⟩ := v
    simp only [Vec3.dot] at heq
    have hxx : x * x = 0 :=
      le_antisymm (by nlinarith [mul_self_nonneg y, mul_self_nonneg z]) (mul_self_nonneg x)
    have hyy : y * y = 0 :=
      le_antisymm (by nlinarith [mul_self_nonneg x, mul_self_nonneg z]) (mul_self_nonneg y)
    have hzz : z * z = 0 :=
      le_antisymm (by nlinarith [mul_self_nonneg x, mul_self_nonneg y]) (mul_self_nonneg z)
    simp [Vec3.zero, mul_self_eq_zero.mp hxx, mul_self_eq_zero.mp hyy, mul_self_eq_zero.mp hzz]

theorem Vec3.norm_pos (v : Vec3) (h : v ≠ Vec3.zero) : 0 < v.norm :=
  Real.sqrt_pos.mpr (v.dot_self_pos h)

theorem Vec3.normalized_dot_self (v : Vec3) (h : v ≠ Vec3.zero) :
    v.normalized.dot v.normalized = 1 := by
  have hn : v.norm ≠ 0 := ne_of_gt (v.norm_pos h)
  have hs : v.norm * v.norm = v.x * v.x + v.y * v.y + v.z * v.z := v.norm_mul_self
  unfold Vec3.normalized Vec3.dot
  field_simp
  linear_combination -hs

theorem camera_forward_unit (M : Mat4)
    (hf : (Mat4.to_3x3 M).mulVec ⟨0, 0, -1⟩ ≠ Vec3.zero) :
    (camera_forward M).dot (camera_forward M) = 1 :=
  Vec3.normalized_dot_self _ hf

/-- With a nonzero forward vector and a positive distance, the direction
computed on line 61 is exactly the negated unit forward vector. -/
theorem camera_facing_direction_eq (M : Mat4) (distance : ℝ)
    (hf : (Mat4.to_3x3 M).mulVec ⟨0, 0, -1⟩ ≠ Vec3.zero) (hd : 0 < distance) :
    camera_facing_direction M distance = (camera_forward M).neg := by
  have hf1 : (camera_forward M).dot (camera_forward M) = 1 := camera_forward_unit M hf
  set f := camera_forward M with hfdef
  obtain ⟨fx, fy, fz⟩ := f
  simp only [Vec3.dot] at hf1
  unfold camera_facing_direction camera_facing_pos
  rw [← hfdef]
  have hsub : Mat4.translation M - (Mat4.translation M + Vec3.smul ⟨fx, fy, fz⟩ distance) =
      ⟨-(fx * distance), -(fy * distance), -(fz * distance)⟩ := by
    show Vec3.sub _ (Vec3.add _ _) = _
    simp only [Vec3.sub, Vec3.add, Vec3.smul, Vec3.mk.injEq]
    refine ⟨by ring, by ring, by ring⟩
  rw [hsub]
  have hnorm : Vec3.norm ⟨-(fx * distance), -(fy * distance), -(fz * distance)⟩ = distance := by
    unfold Vec3.norm Vec3.dot
    have harg : -(fx * distance) * -(fx * distance) + -(fy * distance) * -(fy * distance) +
        -(fz * distance) * -(fz * distance) = distance ^ 2 := by
      linear_combination distance ^ 2 * hf1
    rw [harg, Real.sqrt_sq hd.le]
  unfold Vec3.normalized
  rw [hnorm]
  have hd0 : distance ≠ 0 := ne_of_gt hd
  simp only [Vec3.neg, Vec3.mk.injEq]
  refine ⟨by field_simp, by field_simp, by field_simp⟩

theorem camera_facing_direction_unit (M : Mat4) (distance : ℝ)
    (hf : (Mat4.to_3x3 M).mulVec ⟨0, 0, -1⟩ ≠ Vec3.zero) (hd : 0 < distance) :
    (camera_facing_direction M distance).dot (camera_facing_direction M distance) = 1 := by
  rw [camera_facing_direction_eq M distance hf hd]
  have hf1 := camera_forward_unit M hf
  simp only [Vec3.dot, Vec3.neg] at hf1 ⊢
  linear_combination hf1

/-- In both branches of the construction, the rotation matrix maps the
local Vector((0, 0, -1)) to the facing direction: its third column is
minus the direction. -/
theorem facing_rotation_matrix_faces (d : Vec3) :
    (facing_rotation_matrix d).mulVec ⟨0, 0, -1⟩ = d := by
  obtain ⟨x, y, z⟩ := d
  unfold facing_rotation_matrix
  split
  · simp only [Mat3.transposed, Mat3.mulVec, Vec3.dot, Vec3.neg, Vec3.mk.injEq]
    refine ⟨by ring, by ring, by ring⟩
  · simp only [Mat3.transposed, Mat3.mulVec, Vec3.dot, Vec3.neg, Vec3.mk.injEq]
    refine ⟨by ring, by ring, by ring⟩

/-- For a unit direction in the non-degenerate branch the constructed
matrix is orthonormal: both products with its transpose give the
identity. -/
theorem facing_rotation_matrix_orthonormal (d : Vec3) (hu : d.dot d = 1)
    (hz : |d.z| < 0.999) :
    (facing_rotation_matrix d).mul (facing_rotation_matrix d).transposed = Mat3.id ∧
    (facing_rotation_matrix d).transposed.mul (facing_rotation_matrix d) = Mat3.id := by
  obtain ⟨x, y, z⟩ := d
  have hz' : |(Vec3.mk x y z).z| < 0.999 := hz
  simp only [Vec3.dot] at hu
  have hzz : |z| < 0.999 := hz
  have hz1 : z * z < 1 := by
    have h1 : |z| < 1 := hzz.trans_le (by norm_num)
    nlinarith [abs_nonneg z, abs_mul_abs_self z]
  have hxy : 0 < x * x + y * y := by nlinarith
  set s : ℝ := Real.sqrt (x * x + y * y) with hsdef
  have hspos : 0 < s := Real.sqrt_pos.mpr hxy
  have hs0 : s ≠ 0 := ne_of_gt hspos
  have hss : s * s = x * x + y * y := Real.mul_self_sqrt hxy.le
  have hcross : Vec3.cross ⟨x, y, z⟩ ⟨0, 0, 1⟩ = ⟨y, -x, 0⟩ := by
    simp only [Vec3.cross, Vec3.mk.injEq]
    refine ⟨by ring, by ring, by ring⟩
  have hrightnorm : Vec3.norm ⟨y, -x, 0⟩ = s := by
    unfold Vec3.norm Vec3.dot
    rw [hsdef]
    congr 1
    ring
  have hright : Vec3.normalized ⟨y, -x, 0⟩ = ⟨y / s, -x / s, 0⟩ := by
    unfold Vec3.normalized
    rw [hrightnorm]
    simp [zero_div]
  have hup0 : Vec3.cross ⟨y / s, -x / s, 0⟩ ⟨x, y, z⟩ =
      ⟨-(x * z) / s, -(y * z) / s, (x * x + y * y) / s⟩ := by
    simp only [Vec3.cross, Vec3.mk.injEq]
    refine ⟨by ring, by ring, by ring⟩
  have hupdot : Vec3.dot ⟨-(x * z) / s, -(y * z) / s, (x * x + y * y) / s⟩
      ⟨-(x * z) / s, -(y * z) / s, (x * x + y * y) / s⟩ = 1 := by
    unfold Vec3.dot
    field_simp
    linear_combination (x * x + y * y) * hu - hss
  have hupnorm : Vec3.norm ⟨-(x * z) / s, -(y * z) / s, (x * x + y * y) / s⟩ = 1 := by
    unfold Vec3.norm
    rw [hupdot, Real.sqrt_one]
  have hup : Vec3.normalized ⟨-(x * z) / s, -(y * z) / s, (x * x + y * y) / s⟩ =
      ⟨-(x * z) / s, -(y * z) / s, (x * x + y * y) / s⟩ := by
    unfold Vec3.normalized
    rw [hupnorm]
    simp [div_one]
  have hmat : facing_rotation_matrix ⟨x, y, z⟩ =
      Mat3.transposed ⟨⟨y / s, -x / s, 0⟩,
        ⟨-(x * z) / s, -(y * z) / s, (x * x + y * y) / s⟩, ⟨-x, -y, -z⟩⟩ := by
    rw [facing_rotation_matrix, if_pos hz']
    simp only [hcross, hright, hup0, hup, Vec3.neg]
  rw [hmat]
  constructor
  · simp only [Mat3.transposed, Mat3.mul, Mat3.id, Vec3.dot, Mat3.mk.injEq, Vec3.mk.injEq]
    refine ⟨⟨?_, ?_, ?_⟩, ⟨?_, ?_, ?_⟩, ⟨?_, ?_, ?_⟩⟩
    · field_simp
      linear_combination (x * x - 1) * hss + x * x * hu
    · field_simp
      linear_combination (x * y * (s * s)) * hu + (x * y * (s * s)) * hss
    · field_simp
      linear_combination (x * z) * hss
    · field_simp
      linear_combination (x * y * (s * s)) * hu + (x * y * (s * s)) * hss
    · field_simp
      linear_combination (y * y - 1) * hss + y * y * hu
    · field_simp
      linear_combination (y * z) * hss
    · field_simp
      linear_combination (x * z) * hss
    · field_simp
      linear_combination (y * z) * hss
    · field_simp
      linear_combination (x * x + y * y) * hu + (z * z - 1) * hss
  · simp only [Mat3.transposed, Mat3.mul, Mat3.id, Vec3.dot, Mat3.mk.injEq, Vec3.mk.injEq]
    refine ⟨⟨?_, ?_, ?_⟩, ⟨?_, ?_, ?_⟩, ⟨?_, ?_, ?_⟩⟩
    · field_simp
      linear_combination -hss
    · field_simp
      ring
    · field_simp
      ring
    · field_simp
      ring
    · field_simp
      linear_combination (x * x + y * y) * hu - hss
    · field_simp
      ring
    · field_simp
      ring
    · field_simp
      ring
    · field_simp
      linear_combination hu

/-- Concrete evaluation: the camera forward vector of M_degenerate. -/
theorem M_degenerate_forward :
    camera_forward M_degenerate = ⟨90 / 2026, 0, 2024 / 2026⟩ := by
  unfold camera_forward
  have hto : Mat4.to_3x3 M_degenerate = ⟨⟨1, 0, -90⟩, ⟨0, 1, 0⟩, ⟨0, 0, -2024⟩⟩ := rfl
  rw [hto]
  have hmv : Mat3.mulVec ⟨⟨1, 0, -90⟩, ⟨0, 1, 0⟩, ⟨0, 0, -2024⟩⟩ ⟨0, 0, -1⟩ = ⟨90, 0, 2024⟩ := by
    simp only [Mat3.mulVec, Vec3.dot, Vec3.mk.injEq]
    norm_num
  rw [hmv]
  have hnorm : Vec3.norm ⟨90, 0, 2024⟩ = 2026 := by
    unfold Vec3.norm Vec3.dot
    rw [show ((90 : ℝ) * 90 + 0 * 0 + 2024 * 2024) = 2026 ^ 2 by norm_num]
    exact Real.sqrt_sq (by norm_num)
  unfold Vec3.normalized
  rw [hnorm]
  simp only [Vec3.mk.injEq]
  norm_num

/-- Concrete evaluation: the facing direction computed for M_degenerate at
the default distance 5 lands just inside the degenerate branch. -/
theorem M_degenerate_direction :
    camera_facing_direction M_degenerate 5 = ⟨-(90 / 2026), 0, -(2024 / 2026)⟩ := by
  have hf0 : (Mat4.to_3x3 M_degenerate).mulVec ⟨0, 0, -1⟩ ≠ Vec3.zero := by
    have hto : Mat4.to_3x3 M_degenerate = ⟨⟨1, 0, -90⟩, ⟨0, 1, 0⟩, ⟨0, 0, -2024⟩⟩ := rfl
    rw [hto]
    intro hcontra
    simp only [Mat3.mulVec, Vec3.dot, Vec3.zero, Vec3.mk.injEq] at hcontra
    norm_num at hcontra
  rw [camera_facing_direction_eq M_degenerate 5 hf0 (by norm_num), M_degenerate_forward]
  simp only [Vec3.neg, Vec3.mk.injEq]
  norm_num

/-- C1: refuted as stated.  For the camera world transform M_degenerate
(at distance 5, the distance both operators would use) the computed facing
direction has abs(direction.z) = 2024/2026, at least 0.999, so the
degenerate branch is taken, and there the constructed rotation matrix is
not orthonormal: the product with its transpose differs from the
identity. -/
theorem C1_counterexample :
    0.999 ≤ |(camera_facing_direction M_degenerate 5).z| ∧
    (facing_rotation_matrix (camera_facing_direction M_degenerate 5)).mul
        (facing_rotation_matrix (camera_facing_direction M_degenerate 5)).transposed ≠ Mat3.id := by
  rw [M_degenerate_direction]
  constructor
  · show (0.999 : ℝ) ≤ |(-(2024 / 2026) : ℝ)|
    rw [abs_neg, abs_of_nonneg (by norm_num : (0 : ℝ) ≤ 2024 / 2026)]
    norm_num
  · have hbranch : ¬ |(Vec3.mk (-(90 / 2026)) 0 (-(2024 / 2026))).z| < 0.999 := by
      show ¬ |(-(2024 / 2026) : ℝ)| < 0.999
      rw [abs_neg, abs_of_nonneg (by norm_num : (0 : ℝ) ≤ 2024 / 2026)]
      norm_num
    rw [facing_rotation_matrix, if_neg hbranch]
    intro hEq
    have h11 := congrArg (fun m => m.r1.x) hEq
    simp only [Mat3.transposed, Mat3.mul, Mat3.id, Vec3.dot, Vec3.neg] at h11
    norm_num at h11

/-- C1 (amended): for every camera world transform with a nonzero forward
vector and positive distance, the rotation matrix built from rows right,
up, -direction and transposed maps the local Vector((0,0,-1)) onto the
computed facing direction in every branch, that direction is the unit
vector from the plane position toward the camera, and whenever the
non-degenerate branch is taken (abs(direction.z) < 0.999) the matrix is
moreover orthonormal. -/
theorem C1_rotation_orthonormal (M : Mat4) (distance : ℝ)
    (hf : (Mat4.to_3x3 M).mulVec ⟨0, 0, -1⟩ ≠ Vec3.zero)
    (hd : 0 < distance) :
    (facing_rotation_matrix (camera_facing_direction M distance)).mulVec ⟨0, 0, -1⟩ =
        camera_facing_direction M distance ∧
    (camera_facing_direction M distance).dot (camera_facing_direction M distance) = 1 ∧
    (|(camera_facing_direction M distance).z| < 0.999 →
      (facing_rotation_matrix (camera_facing_direction M distance)).mul
          (facing_rotation_matrix (camera_facing_direction M distance)).transposed = Mat3.id ∧
      (facing_rotation_matrix (camera_facing_direction M distance)).transposed.mul
          (facing_rotation_matrix (camera_facing_direction M distance)) = Mat3.id) := by
  have hu := camera_facing_direction_unit M distance hf hd
  exact ⟨facing_rotation_matrix_faces _, hu,
    fun hz => facing_rotation_matrix_orthonormal _ hu hz⟩

/-- Concrete evaluation: the facing direction computed for the horizontal
camera M_horizontal at distance 5. -/
theorem M_horizontal_direction :
    camera_facing_direction M_horizontal 5 = ⟨0, -1, 0⟩ := by
  have hto : Mat4.to_3x3 M_horizontal = ⟨⟨1, 0, 0⟩, ⟨0, 0, -1⟩, ⟨0, 1, 0⟩⟩ := rfl
  have hmv : (Mat4.to_3x3 M_horizontal).mulVec ⟨0, 0, -1⟩ = ⟨0, 1, 0⟩ := by
    rw [hto]
    simp only [Mat3.mulVec, Vec3.dot, Vec3.mk.injEq]
    norm_num
  have hf0 : (Mat4.to_3x3 M_horizontal).mulVec ⟨0, 0, -1⟩ ≠ Vec3.zero := by
    rw [hmv]
    intro hcontra
    simp only [Vec3.zero, Vec3.mk.injEq] at hcontra
    norm_num at hcontra
  rw [camera_facing_direction_eq M_horizontal 5 hf0 (by norm_num)]
  unfold camera_forward
  rw [hmv]
  have hnorm : Vec3.norm ⟨0, 1, 0⟩ = 1 := by
    unfold Vec3.norm Vec3.dot
    rw [show ((0 : ℝ) * 0 + 1 * 1 + 0 * 0) = 1 by norm_num]
    exact Real.sqrt_one
  unfold Vec3.normalized Vec3.neg
  rw [hnorm]
  simp only [Vec3.mk.injEq]
  norm_num

/-- Witness for C1_rotation_orthonormal at two concrete cameras: the
horizontal camera M_horizontal (non-degenerate branch, orthonormal
matrix) and the camera M_degenerate (degenerate branch, where the matrix
still maps the local (0,0,-1) axis onto the facing direction). -/
theorem C1_rotation_orthonormal_witness :
    (Mat4.to_3x3 M_horizontal).mulVec ⟨0, 0, -1⟩ ≠ Vec3.zero ∧
    (0 : ℝ) < 5 ∧
    |(camera_facing_direction M_horizontal 5).z| < 0.999 ∧
    (facing_rotation_matrix (camera_facing_direction M_horizontal 5)).mulVec ⟨0, 0, -1⟩ =
        camera_facing_direction M_horizontal 5 ∧
    (facing_rotation_matrix (camera_facing_direction M_horizontal 5)).mul
        (facing_rotation_matrix (camera_facing_direction M_horizontal 5)).transposed = Mat3.id ∧
    (Mat4.to_3x3 M_degenerate).mulVec ⟨0, 0, -1⟩ ≠ Vec3.zero ∧
    0.999 ≤ |(camera_facing_direction M_degenerate 5).z| ∧
    (facing_rotation_matrix (camera_facing_direction M_degenerate 5)).mulVec ⟨0, 0, -1⟩ =
        camera_facing_direction M_degenerate 5 := by
  have hf0 : (Mat4.to_3x3 M_horizontal).mulVec ⟨0, 0, -1⟩ ≠ Vec3.zero := by
    have hto : Mat4.to_3x3 M_horizontal = ⟨⟨1, 0, 0⟩, ⟨0, 0, -1⟩, ⟨0, 1, 0⟩⟩ := rfl
    rw [hto]
    intro hcontra
    simp only [Mat3.mulVec, Vec3.dot, Vec3.zero, Vec3.mk.injEq] at hcontra
    norm_num at hcontra
  have hz : |(camera_facing_direction M_horizontal 5).z| < 0.999 := by
    rw [M_horizontal_direction]
    show |(0 : ℝ)| < 0.999
    rw [abs_zero]
    norm_num
  have hfd : (Mat4.to_3x3 M_degenerate).mulVec ⟨0, 0, -1⟩ ≠ Vec3.zero := by
    have hto : Mat4.to_3x3 M_degenerate = ⟨⟨1, 0, -90⟩, ⟨0, 1, 0⟩, ⟨0, 0, -2024⟩⟩ := rfl
    rw [hto]
    intro hcontra
    simp only [Mat3.mulVec, Vec3.dot, Vec3.zero, Vec3.mk.injEq] at hcontra
    norm_num at hcontra
  have hzd : 0.999 ≤ |(camera_facing_direction M_degenerate 5).z| := by
    rw [M_degenerate_direction]
    show (0.999 : ℝ) ≤ |(-(2024 / 2026) : ℝ)|
    rw [abs_neg, abs_of_nonneg (by norm_num : (0 : ℝ) ≤ 2024 / 2026)]
    norm_num
  have h1 := C1_rotation_orthonormal M_horizontal 5 hf0 (by norm_num)
  have h2 := C1_rotation_orthonormal M_degenerate 5 hfd (by norm_num)
  exact ⟨hf0, by norm_num, hz, h1.1, (h1.2.2 hz).1, hfd, hzd, h2.1⟩

/-- On a successful clipboard paste the first operator produces exactly
this result record. -/
theorem pasteImage_success (h : Host) (ctx : BContext) (fmt name : String)
    (hp : h.pillow = true) (hg : h.grab = PResult.ok (Clip.image fmt))
    (hs : h.save = PResult.ok ()) (hl : h.load = PResult.ok name) :
    pastePureRefImage_execute h ctx =
      { reports := [("INFO", "Image pasted from clipboard and positioned in front of viewport")],
        status := ["FINISHED"],
        collection_objects := ctx.collection_objects ++
          [{ name := name, location := (get_viewport_facing_position ctx 5.0).1,
             rotation_euler := (get_viewport_facing_position ctx 5.0).2,
             scale := ⟨2.0, 2.0, 1.0⟩, empty_display_type := "IMAGE",
             data := some name, selected := true }],
        view_layer_active := some name,
        saved_paths := [joinPath h.tempdir "clipboard_image.png"],
        writes := [(name, "empty_display_type"), (name, "data"), (name, "location"),
                   (name, "rotation_euler"), (name, "scale")] } := by
  unfold pastePureRefImage_execute
  rw [hp, hg, hs, hl]
  rfl

/-- On a successful clipboard paste the cursor operator produces exactly
this result record. -/
theorem pasteCursor_success (h : Host) (ctx : BContext) (fmt name : String)
    (hp : h.pillow = true) (hg : h.grab = PResult.ok (Clip.image fmt))
    (hs : h.save = PResult.ok ()) (hl : h.load = PResult.ok name) :
    pastePureRefFromCursor_execute h ctx =
      { reports := [("INFO", "Image pasted from clipboard at cursor position facing user")],
        status := ["FINISHED"],
        collection_objects := ctx.collection_objects ++
          [{ name := name, location := ctx.scene.cursor_location,
             rotation_euler := (get_viewport_facing_position ctx 0.0).2,
             scale := ⟨2.0, 2.0, 1.0⟩, empty_display_type := "IMAGE",
             data := some name, selected := true }],
        view_layer_active := some name,
        saved_paths := [joinPath h.tempdir "clipboard_image.png"],
        writes := [(name, "empty_display_type"), (name, "data"), (name, "location"),
                   (name, "rotation_euler"), (name, "scale")] } := by
  unfold pastePureRefFromCursor_execute
  rw [hp, hg, hs, hl]
  rfl

/-- Neither execute method reads the scene camera: replacing it does not
change the result. -/
theorem paste_camera_independent (h : Host) (ctx : BContext) (c : Option CameraObject) :
    pastePureRefImage_execute h (setCamera ctx c) = pastePureRefImage_execute h ctx ∧
    pastePureRefFromCursor_execute h (setCamera ctx c) = pastePureRefFromCursor_execute h ctx := by
  cases ctx with
  | mk areas scene objs act =>
    cases scene with
    | mk cam cur => exact ⟨rfl, rfl⟩

/-- get_viewport_facing_position never reads the 3D cursor. -/
theorem gvfp_cursor_independent (ctx : BContext) (c : Vec3) (distance : ℝ) :
    get_viewport_facing_position (setCursor ctx c) distance =
      get_viewport_facing_position ctx distance := by
  cases ctx with
  | mk areas scene objs act =>
    cases scene with
    | mk cam cur => rfl

/-- C7: both paste operator execute functions always return the status set
FINISHED, for every host behaviour (including every raised exception) and
every context; being total functions of the embedded inputs they never
propagate an exception, and no other status is ever returned. -/
theorem C7_always_finished (h : Host) (ctx : BContext) :
    (pastePureRefImage_execute h ctx).status = ["FINISHED"] ∧
    (pastePureRefFromCursor_execute h ctx).status = ["FINISHED"] := by
  refine ⟨?_, ?_⟩
  · unfold pastePureRefImage_execute
    repeat' split
    all_goals rfl
  · unfold pastePureRefFromCursor_execute
    repeat' split
    all_goals rfl

/-- C4: each paste operator distinguishes exactly the three failure
conditions through self.report: a missing Pillow dependency (ImportError)
gives one ERROR report telling the user to install Pillow; clipboard
content that is not an image gives one WARNING report No image in
clipboard; any other exception raised by the clipboard grab, the file
save or the image load gives one ERROR report carrying the exception
message string. -/
theorem C4_error_reports (h : Host) (ctx : BContext) :
    (h.pillow = false →
      (pastePureRefImage_execute h ctx).reports = [("ERROR", pillow_error_message)] ∧
      (pastePureRefFromCursor_execute h ctx).reports = [("ERROR", pillow_error_message)]) ∧
    (∀ e, h.pillow = true → h.grab = PResult.raise e →
      (pastePureRefImage_execute h ctx).reports = [("ERROR", e)] ∧
      (pastePureRefFromCursor_execute h ctx).reports = [("ERROR", e)]) ∧
    (∀ c, h.pillow = true → h.grab = PResult.ok c → (∀ fmt, c ≠ Clip.image fmt) →
      (pastePureRefImage_execute h ctx).reports = [("WARNING", "No image in clipboard")] ∧
      (pastePureRefFromCursor_execute h ctx).reports = [("WARNING", "No image in clipboard")]) ∧
    (∀ fmt e, h.pillow = true → h.grab = PResult.ok (Clip.image fmt) → h.save = PResult.raise e →
      (pastePureRefImage_execute h ctx).reports = [("ERROR", e)] ∧
      (pastePureRefFromCursor_execute h ctx).reports = [("ERROR", e)]) ∧
    (∀ fmt e, h.pillow = true → h.grab = PResult.ok (Clip.image fmt) → h.save = PResult.ok () →
      h.load = PResult.raise e →
      (pastePureRefImage_execute h ctx).reports = [("ERROR", e)] ∧
      (pastePureRefFromCursor_execute h ctx).reports = [("ERROR", e)]) := by
  refine ⟨?_, ?_, ?_, ?_, ?_⟩
  · intro hp
    unfold pastePureRefImage_execute pastePureRefFromCursor_execute
    rw [hp]
    exact ⟨rfl, rfl⟩
  · intro e hp hg
    unfold pastePureRefImage_execute pastePureRefFromCursor_execute
    rw [hp, hg]
    exact ⟨rfl, rfl⟩
  · intro c hp hg hni
    unfold pastePureRefImage_execute pastePureRefFromCursor_execute
    rw [hp, hg]
    cases c with
    | empty => exact ⟨rfl, rfl⟩
    | image fmt => exact absurd rfl (hni fmt)
    | files ps => exact ⟨rfl, rfl⟩
  · intro fmt e hp hg hs
    unfold pastePureRefImage_execute pastePureRefFromCursor_execute
    rw [hp, hg, hs]
    exact ⟨rfl, rfl⟩
  · intro fmt e hp hg hs hl
    unfold pastePureRefImage_execute pastePureRefFromCursor_execute
    rw [hp, hg, hs, hl]
    exact ⟨rfl, rfl⟩

/-- Witness for C4_error_reports: on a host without Pillow the first
operator reports the install-Pillow ERROR, and on a host with an empty
clipboard the cursor operator reports the no-image WARNING. -/
theorem C4_error_reports_witness :
    (pastePureRefImage_execute host_noPillow ctx0).reports =
      [("ERROR", pillow_error_message)] ∧
    (pastePureRefFromCursor_execute host_emptyClip ctx0).reports =
      [("WARNING", "No image in clipboard")] := by
  constructor
  · exact ((C4_error_reports host_noPillow ctx0).1 rfl).1
  · exact ((C4_error_reports host_emptyClip ctx0).2.2.1 Clip.empty rfl rfl
      (fun fmt hcontra => Clip.noConfusion hcontra)).2

/-- C9: whenever Pillow imports and the clipboard holds an image of any
format, both operators hand exactly the fixed path gettempdir() joined
with clipboard_image.png to Image.save, so every successive paste writes
the same file. -/
theorem C9_fixed_temp_path (h : Host) (ctx : BContext) (fmt : String)
    (hp : h.pillow = true) (hg : h.grab = PResult.ok (Clip.image fmt)) :
    (pastePureRefImage_execute h ctx).saved_paths =
      [joinPath h.tempdir "clipboard_image.png"] ∧
    (pastePureRefFromCursor_execute h ctx).saved_paths =
      [joinPath h.tempdir "clipboard_image.png"] := by
  constructor
  · unfold pastePureRefImage_execute
    rw [hp, hg]
    rcases hs2 : h.save with u | e
    · rcases hl2 : h.load with n | e2 <;> simp [hs2, hl2]
    · simp [hs2]
  · unfold pastePureRefFromCursor_execute
    rw [hp, hg]
    rcases hs2 : h.save with u | e
    · rcases hl2 : h.load with n | e2 <;> simp [hs2, hl2]
    · simp [hs2]

/-- Witness for C9_fixed_temp_path at the concrete host host0. -/
theorem C9_fixed_temp_path_witness :
    (pastePureRefImage_execute host0 ctx0).saved_paths =
      [joinPath host0.tempdir "clipboard_image.png"] ∧
    (pastePureRefFromCursor_execute host0 ctx0).saved_paths =
      [joinPath host0.tempdir "clipboard_image.png"] :=
  C9_fixed_temp_path host0 ctx0 "PNG" rfl rfl

/-- C3: the code contradicts its own bl_info description: an object is
only ever created when ImageGrab.grabclipboard() returned a PIL image.
No registered operator reads an image file chosen on disk: the embedded
host interface of both paste operators has no file input at all. -/
theorem C3_clipboard_only (h : Host) (ctx : BContext)
    (hgrow : ctx.collection_objects.length <
        (pastePureRefImage_execute h ctx).collection_objects.length ∨
      ctx.collection_objects.length <
        (pastePureRefFromCursor_execute h ctx).collection_objects.length) :
    ∃ fmt, h.grab = PResult.ok (Clip.image fmt) := by
  rcases hgrab : h.grab with c | e
  · cases c with
    | image fmt => exact ⟨fmt, rfl⟩
    | empty =>
      exfalso
      have h1 : (pastePureRefImage_execute h ctx).collection_objects =
          ctx.collection_objects := by
        unfold pastePureRefImage_execute
        cases hp2 : h.pillow <;> simp [hp2, hgrab]
      have h2 : (pastePureRefFromCursor_execute h ctx).collection_objects =
          ctx.collection_objects := by
        unfold pastePureRefFromCursor_execute
        cases hp2 : h.pillow <;> simp [hp2, hgrab]
      rcases hgrow with hg | hg
      · rw [h1] at hg
        exact lt_irrefl _ hg
      · rw [h2] at hg
        exact lt_irrefl _ hg
    | files ps =>
      exfalso
      have h1 : (pastePureRefImage_execute h ctx).collection_objects =
          ctx.collection_objects := by
        unfold pastePureRefImage_execute
        cases hp2 : h.pillow <;> simp [hp2, hgrab]
      have h2 : (pastePureRefFromCursor_execute h ctx).collection_objects =
          ctx.collection_objects := by
        unfold pastePureRefFromCursor_execute
        cases hp2 : h.pillow <;> simp [hp2, hgrab]
      rcases hgrow with hg | hg
      · rw [h1] at hg
        exact lt_irrefl _ hg
      · rw [h2] at hg
        exact lt_irrefl _ hg
  · exfalso
    have h1 : (pastePureRefImage_execute h ctx).collection_objects =
        ctx.collection_objects := by
      unfold pastePureRefImage_execute
      cases hp2 : h.pillow <;> simp [hp2, hgrab]
    have h2 : (pastePureRefFromCursor_execute h ctx).collection_objects =
        ctx.collection_objects := by
      unfold pastePureRefFromCursor_execute
      cases hp2 : h.pillow <;> simp [hp2, hgrab]
    rcases hgrow with hg | hg
    · rw [h1] at hg
      exact lt_irrefl _ hg
    · rw [h2] at hg
      exact lt_irrefl _ hg

/-- Witness for C3_clipboard_only: on host0 the first operator does create
an object, and indeed host0 grabbed a clipboard image. -/
theorem C3_clipboard_only_witness :
    (ctx0.collection_objects.length <
      (pastePureRefImage_execute host0 ctx0).collection_objects.length) ∧
    ∃ fmt, host0.grab = PResult.ok (Clip.image fmt) := by
  have hgrow : ctx0.collection_objects.length <
      (pastePureRefImage_execute host0 ctx0).collection_objects.length := by
    rw [pasteImage_success host0 ctx0 "PNG" "clipboard_image.png" rfl rfl rfl rfl]
    simp
  exact ⟨hgrow, C3_clipboard_only host0 ctx0 (Or.inl hgrow)⟩

/-- Concrete evaluation: the viewport facing position for ctx0 (identity
view matrix) at distance 5 is five units in front of the origin. -/
theorem ctx0_viewport_position :
    (get_viewport_facing_position ctx0 5.0).1 = ⟨0, 0, -5⟩ := by
  have hfv : findViewport ctx0.screen_areas = some (1 : Mat4) := rfl
  unfold get_viewport_facing_position
  rw [hfv]
  have hinv : Mat4.inverted (1 : Mat4) = 1 := by
    unfold Mat4.inverted
    exact Matrix.inv_eq_right_inv (one_mul 1)
  dsimp only
  rw [hinv]
  have htr : Mat4.translation (1 : Mat4) = ⟨0, 0, 0⟩ := by
    unfold Mat4.translation
    rw [Matrix.one_apply_ne (by decide : (0 : Fin 4) ≠ 3),
        Matrix.one_apply_ne (by decide : (1 : Fin 4) ≠ 3),
        Matrix.one_apply_ne (by decide : (2 : Fin 4) ≠ 3)]
  have hto : Mat4.to_3x3 (1 : Mat4) = ⟨⟨1, 0, 0⟩, ⟨0, 1, 0⟩, ⟨0, 0, 1⟩⟩ := by
    unfold Mat4.to_3x3
    rw [Matrix.one_apply_eq, Matrix.one_apply_eq, Matrix.one_apply_eq,
        Matrix.one_apply_ne (by decide : (0 : Fin 4) ≠ 1),
        Matrix.one_apply_ne (by decide : (0 : Fin 4) ≠ 2),
        Matrix.one_apply_ne (by decide : (1 : Fin 4) ≠ 0),
        Matrix.one_apply_ne (by decide : (1 : Fin 4) ≠ 2),
        Matrix.one_apply_ne (by decide : (2 : Fin 4) ≠ 0),
        Matrix.one_apply_ne (by decide : (2 : Fin 4) ≠ 1)]
  rw [htr, hto]
  have hmv : Mat3.mulVec ⟨⟨1, 0, 0⟩, ⟨0, 1, 0⟩, ⟨0, 0, 1⟩⟩ ⟨0, 0, -1⟩ = ⟨0, 0, -1⟩ := by
    simp only [Mat3.mulVec, Vec3.dot, Vec3.mk.injEq]
    norm_num
  rw [hmv]
  have hnorm : Vec3.norm ⟨0, 0, -1⟩ = 1 := by
    unfold Vec3.norm Vec3.dot
    rw [show ((0 : ℝ) * 0 + 0 * 0 + -1 * -1) = 1 by norm_num]
    exact Real.sqrt_one
  unfold Vec3.normalized
  rw [hnorm]
  show Vec3.add _ _ = _
  simp only [Vec3.add, Vec3.smul, Vec3.mk.injEq]
  norm_num

/-- Concrete evaluation: the camera facing position on ctx0 (camera at
x = 100 looking down -Z) at distance 5. -/
theorem ctx0_camera_position :
    (get_camera_facing_position ctx0 5.0).1 = ⟨100, 0, -5⟩ := by
  have hcam : ctx0.scene.camera = some ⟨M_at100⟩ := rfl
  unfold get_camera_facing_position
  rw [hcam]
  dsimp only
  unfold camera_facing_pos camera_forward
  have hto : Mat4.to_3x3 M_at100 = ⟨⟨1, 0, 0⟩, ⟨0, 1, 0⟩, ⟨0, 0, 1⟩⟩ := rfl
  have htr : Mat4.translation M_at100 = ⟨100, 0, 0⟩ := rfl
  rw [hto, htr]
  have hmv : Mat3.mulVec ⟨⟨1, 0, 0⟩, ⟨0, 1, 0⟩, ⟨0, 0, 1⟩⟩ ⟨0, 0, -1⟩ = ⟨0, 0, -1⟩ := by
    simp only [Mat3.mulVec, Vec3.dot, Vec3.mk.injEq]
    norm_num
  rw [hmv]
  have hnorm : Vec3.norm ⟨0, 0, -1⟩ = 1 := by
    unfold Vec3.norm Vec3.dot
    rw [show ((0 : ℝ) * 0 + 0 * 0 + -1 * -1) = 1 by norm_num]
    exact Real.sqrt_one
  unfold Vec3.normalized
  rw [hnorm]
  show Vec3.add _ _ = _
  simp only [Vec3.add, Vec3.smul, Vec3.mk.injEq]
  norm_num

/-- C2: refuted as stated: no invocation of a paste operator computes the
created object location or rotation from the scene camera transform via
get_camera_facing_position.  On the concrete context ctx0 (camera at
x = 100) the first operator creates the object at the viewport-derived
location, which differs from the camera-derived position, and the full
result of both operators is unchanged when the scene camera is removed. -/
theorem C2_counterexample :
    (pastePureRefImage_execute host0 ctx0).collection_objects.map SceneObject.location ≠
      [(get_camera_facing_position ctx0 5.0).1] ∧
    pastePureRefImage_execute host0 ctx0 = pastePureRefImage_execute host0 ctx0_nocam ∧
    pastePureRefFromCursor_execute host0 ctx0 = pastePureRefFromCursor_execute host0 ctx0_nocam := by
  refine ⟨?_, ?_, ?_⟩
  · intro hEq
    rw [pasteImage_success host0 ctx0 "PNG" "clipboard_image.png" rfl rfl rfl rfl] at hEq
    have hobj : ctx0.collection_objects = ([] : List SceneObject) := rfl
    rw [hobj] at hEq
    simp only [List.nil_append, List.map_cons, List.map_nil] at hEq
    rw [ctx0_viewport_position, ctx0_camera_position] at hEq
    simp only [List.cons.injEq, and_true, Vec3.mk.injEq] at hEq
    norm_num at hEq
  · exact (paste_camera_independent host0 ctx0 none).1.symm
  · exact (paste_camera_independent host0 ctx0 none).2.symm

/-- C2 (amended): the operators position the pasted object relative to the
viewport or the 3D cursor, never the camera: on every successful paste the
clipboard operator takes location and rotation from
get_viewport_facing_position at distance 5.0, and the cursor operator
takes the 3D cursor location together with the viewport rotation at
distance 0.0; get_camera_facing_position is defined but not consulted, so
both results are independent of the scene camera. -/
theorem C2_paste_positions (h : Host) (ctx : BContext) (fmt name : String)
    (hp : h.pillow = true) (hg : h.grab = PResult.ok (Clip.image fmt))
    (hs : h.save = PResult.ok ()) (hl : h.load = PResult.ok name) :
    ∃ r1 r2 : SceneObject,
      (pastePureRefImage_execute h ctx).collection_objects = ctx.collection_objects ++ [r1] ∧
      r1.location = (get_viewport_facing_position ctx 5.0).1 ∧
      r1.rotation_euler = (get_viewport_facing_position ctx 5.0).2 ∧
      (pastePureRefFromCursor_execute h ctx).collection_objects = ctx.collection_objects ++ [r2] ∧
      r2.location = ctx.scene.cursor_location ∧
      r2.rotation_euler = (get_viewport_facing_position ctx 0.0).2 ∧
      (∀ c : Option CameraObject,
        pastePureRefImage_execute h (setCamera ctx c) = pastePureRefImage_execute h ctx ∧
        pastePureRefFromCursor_execute h (setCamera ctx c) = pastePureRefFromCursor_execute h ctx) := by
  refine ⟨{ name := name, location := (get_viewport_facing_position ctx 5.0).1,
            rotation_euler := (get_viewport_facing_position ctx 5.0).2,
            scale := ⟨2.0, 2.0, 1.0⟩, empty_display_type := "IMAGE",
            data := some name, selected := true },
          { name := name, location := ctx.scene.cursor_location,
            rotation_euler := (get_viewport_facing_position ctx 0.0).2,
            scale := ⟨2.0, 2.0, 1.0⟩, empty_display_type := "IMAGE",
            data := some name, selected := true },
          ?_, rfl, rfl, ?_, rfl, rfl, fun c => paste_camera_independent h ctx c⟩
  · rw [pasteImage_success h ctx fmt name hp hg hs hl]
  · rw [pasteCursor_success h ctx fmt name hp hg hs hl]

/-- Witness for C2_paste_positions at the concrete host0 and ctx0. -/
theorem C2_paste_positions_witness :
    ∃ r1 r2 : SceneObject,
      (pastePureRefImage_execute host0 ctx0).collection_objects =
        ctx0.collection_objects ++ [r1] ∧
      r1.location = (get_viewport_facing_position ctx0 5.0).1 ∧
      r1.rotation_euler = (get_viewport_facing_position ctx0 5.0).2 ∧
      (pastePureRefFromCursor_execute host0 ctx0).collection_objects =
        ctx0.collection_objects ++ [r2] ∧
      r2.location = ctx0.scene.cursor_location ∧
      r2.rotation_euler = (get_viewport_facing_position ctx0 0.0).2 ∧
      (∀ c : Option CameraObject,
        pastePureRefImage_execute host0 (setCamera ctx0 c) =
          pastePureRefImage_execute host0 ctx0 ∧
        pastePureRefFromCursor_execute host0 (setCamera ctx0 c) =
          pastePureRefFromCursor_execute host0 ctx0) :=
  C2_paste_positions host0 ctx0 "PNG" "clipboard_image.png" rfl rfl rfl rfl

/-- C5: on every successful paste the cursor operator places the created
object exactly at the scene 3D cursor location and rotates it by the
viewport rotation returned by get_viewport_facing_position at distance
0.0; the cursor never influences get_viewport_facing_position, and with
the screen areas replaced arbitrarily the location is still exactly the
cursor. -/
theorem C5_cursor_paste (h : Host) (ctx : BContext) (fmt name : String)
    (hp : h.pillow = true) (hg : h.grab = PResult.ok (Clip.image fmt))
    (hs : h.save = PResult.ok ()) (hl : h.load = PResult.ok name) :
    ∃ r : SceneObject,
      (pastePureRefFromCursor_execute h ctx).collection_objects = ctx.collection_objects ++ [r] ∧
      r.location = ctx.scene.cursor_location ∧
      r.rotation_euler = (get_viewport_facing_position ctx 0.0).2 ∧
      (∀ c : Vec3, get_viewport_facing_position (setCursor ctx c) 0.0 =
        get_viewport_facing_position ctx 0.0) ∧
      (∀ as : List ScreenArea, ∃ r2 : SceneObject,
        (pastePureRefFromCursor_execute h (setAreas ctx as)).collection_objects =
          ctx.collection_objects ++ [r2] ∧
        r2.location = ctx.scene.cursor_location) := by
  refine ⟨{ name := name, location := ctx.scene.cursor_location,
            rotation_euler := (get_viewport_facing_position ctx 0.0).2,
            scale := ⟨2.0, 2.0, 1.0⟩, empty_display_type := "IMAGE",
            data := some name, selected := true },
          ?_, rfl, rfl, fun c => gvfp_cursor_independent ctx c 0.0, ?_⟩
  · rw [pasteCursor_success h ctx fmt name hp hg hs hl]
  · intro as
    refine ⟨{ name := name, location := (setAreas ctx as).scene.cursor_location,
              rotation_euler := (get_viewport_facing_position (setAreas ctx as) 0.0).2,
              scale := ⟨2.0, 2.0, 1.0⟩, empty_display_type := "IMAGE",
              data := some name, selected := true }, ?_, rfl⟩
    rw [pasteCursor_success h (setAreas ctx as) fmt name hp hg hs hl]
    rfl

/-- Witness for C5_cursor_paste at the concrete host0 and ctx0. -/
theorem C5_cursor_paste_witness :
    ∃ r : SceneObject,
      (pastePureRefFromCursor_execute host0 ctx0).collection_objects =
        ctx0.collection_objects ++ [r] ∧
      r.location = ctx0.scene.cursor_location ∧
      r.rotation_euler = (get_viewport_facing_position ctx0 0.0).2 ∧
      (∀ c : Vec3, get_viewport_facing_position (setCursor ctx0 c) 0.0 =
        get_viewport_facing_position ctx0 0.0) ∧
      (∀ as : List ScreenArea, ∃ r2 : SceneObject,
        (pastePureRefFromCursor_execute host0 (setAreas ctx0 as)).collection_objects =
          ctx0.collection_objects ++ [r2] ∧
        r2.location = ctx0.scene.cursor_location) :=
  C5_cursor_paste host0 ctx0 "PNG" "clipboard_image.png" rfl rfl rfl rfl

/-- C8: the result object list of each paste operator always extends the
pre-existing collection objects unchanged, and on a successful paste
exactly one object is appended whose attribute-write trace is exactly one
write of the display type, the image data, the location, the rotation and
the scale, all on the new object and each performed once. -/
theorem C8_write_discipline (h : Host) (ctx : BContext) :
    (∃ tail, (pastePureRefImage_execute h ctx).collection_objects =
      ctx.collection_objects ++ tail) ∧
    (∃ tail, (pastePureRefFromCursor_execute h ctx).collection_objects =
      ctx.collection_objects ++ tail) ∧
    (∀ fmt name, h.pillow = true → h.grab = PResult.ok (Clip.image fmt) →
      h.save = PResult.ok () → h.load = PResult.ok name →
      ∃ r1 r2 : SceneObject,
        (pastePureRefImage_execute h ctx).collection_objects =
          ctx.collection_objects ++ [r1] ∧
        (pastePureRefFromCursor_execute h ctx).collection_objects =
          ctx.collection_objects ++ [r2] ∧
        (pastePureRefImage_execute h ctx).writes =
          [(r1.name, "empty_display_type"), (r1.name, "data"), (r1.name, "location"),
           (r1.name, "rotation_euler"), (r1.name, "scale")] ∧
        (pastePureRefFromCursor_execute h ctx).writes =
          [(r2.name, "empty_display_type"), (r2.name, "data"), (r2.name, "location"),
           (r2.name, "rotation_euler"), (r2.name, "scale")]) := by
  refine ⟨?_, ?_, ?_⟩
  · unfold pastePureRefImage_execute
    repeat' split
    all_goals first
      | exact ⟨[], (List.append_nil _).symm⟩
      | exact ⟨_, rfl⟩
  · unfold pastePureRefFromCursor_execute
    repeat' split
    all_goals first
      | exact ⟨[], (List.append_nil _).symm⟩
      | exact ⟨_, rfl⟩
  · intro fmt name hp hg hs hl
    refine ⟨{ name := name, location := (get_viewport_facing_position ctx 5.0).1,
              rotation_euler := (get_viewport_facing_position ctx 5.0).2,
              scale := ⟨2.0, 2.0, 1.0⟩, empty_display_type := "IMAGE",
              data := some name, selected := true },
            { name := name, location := ctx.scene.cursor_location,
              rotation_euler := (get_viewport_facing_position ctx 0.0).2,
              scale := ⟨2.0, 2.0, 1.0⟩, empty_display_type := "IMAGE",
              data := some name, selected := true }, ?_, ?_, ?_, ?_⟩
    · rw [pasteImage_success h ctx fmt name hp hg hs hl]
    · rw [pasteCursor_success h ctx fmt name hp hg hs hl]
    · rw [pasteImage_success h ctx fmt name hp hg hs hl]
    · rw [pasteCursor_success h ctx fmt name hp hg hs hl]

/-- Witness for C8_write_discipline: the success part at host0 and ctx0. -/
theorem C8_write_discipline_witness :
    ∃ r1 r2 : SceneObject,
      (pastePureRefImage_execute host0 ctx0).collection_objects =
        ctx0.collection_objects ++ [r1] ∧
      (pastePureRefFromCursor_execute host0 ctx0).collection_objects =
        ctx0.collection_objects ++ [r2] ∧
      (pastePureRefImage_execute host0 ctx0).writes =
        [(r1.name, "empty_display_type"), (r1.name, "data"), (r1.name, "location"),
         (r1.name, "rotation_euler"), (r1.name, "scale")] ∧
      (pastePureRefFromCursor_execute host0 ctx0).writes =
        [(r2.name, "empty_display_type"), (r2.name, "data"), (r2.name, "location"),
         (r2.name, "rotation_euler"), (r2.name, "scale")] :=
  (C8_write_discipline host0 ctx0).2.2 "PNG" "clipboard_image.png" rfl rfl rfl rfl

/-- C10: every object created by a successful paste of either operator has
empty display type IMAGE, scale (2.0, 2.0, 1.0), is linked into the
active collection, is selected and is the view layer active object. -/
theorem C10_created_object_invariants (h : Host) (ctx : BContext) (fmt name : String)
    (hp : h.pillow = true) (hg : h.grab = PResult.ok (Clip.image fmt))
    (hs : h.save = PResult.ok ()) (hl : h.load = PResult.ok name) :
    ∃ r1 r2 : SceneObject,
      (pastePureRefImage_execute h ctx).collection_objects =
        ctx.collection_objects ++ [r1] ∧
      r1.empty_display_type = "IMAGE" ∧ r1.scale = ⟨2.0, 2.0, 1.0⟩ ∧ r1.selected = true ∧
      (pastePureRefImage_execute h ctx).view_layer_active = some r1.name ∧
      r1 ∈ (pastePureRefImage_execute h ctx).collection_objects ∧
      (pastePureRefFromCursor_execute h ctx).collection_objects =
        ctx.collection_objects ++ [r2] ∧
      r2.empty_display_type = "IMAGE" ∧ r2.scale = ⟨2.0, 2.0, 1.0⟩ ∧ r2.selected = true ∧
      (pastePureRefFromCursor_execute h ctx).view_layer_active = some r2.name ∧
      r2 ∈ (pastePureRefFromCursor_execute h ctx).collection_objects := by
  refine ⟨{ name := name, location := (get_viewport_facing_position ctx 5.0).1,
            rotation_euler := (get_viewport_facing_position ctx 5.0).2,
            scale := ⟨2.0, 2.0, 1.0⟩, empty_display_type := "IMAGE",
            data := some name, selected := true },
          { name := name, location := ctx.scene.cursor_location,
            rotation_euler := (get_viewport_facing_position ctx 0.0).2,
            scale := ⟨2.0, 2.0, 1.0⟩, empty_display_type := "IMAGE",
            data := some name, selected := true },
          ?_, rfl, rfl, rfl, ?_, ?_, ?_, rfl, rfl, rfl, ?_, ?_⟩
  · rw [pasteImage_success h ctx fmt name hp hg hs hl]
  · rw [pasteImage_success h ctx fmt name hp hg hs hl]
  · rw [pasteImage_success h ctx fmt name hp hg hs hl]
    exact List.mem_append_right _ (List.mem_singleton.mpr rfl)
  · rw [pasteCursor_success h ctx fmt name hp hg hs hl]
  · rw [pasteCursor_success h ctx fmt name hp hg hs hl]
  · rw [pasteCursor_success h ctx fmt name hp hg hs hl]
    exact List.mem_append_right _ (List.mem_singleton.mpr rfl)

/-- Witness for C10_created_object_invariants at host0 and ctx0. -/
theorem C10_created_object_invariants_witness :
    ∃ r1 r2 : SceneObject,
      (pastePureRefImage_execute host0 ctx0).collection_objects =
        ctx0.collection_objects ++ [r1] ∧
      r1.empty_display_type = "IMAGE" ∧ r1.scale = ⟨2.0, 2.0, 1.0⟩ ∧ r1.selected = true ∧
      (pastePureRefImage_execute host0 ctx0).view_layer_active = some r1.name ∧
      r1 ∈ (pastePureRefImage_execute host0 ctx0).collection_objects ∧
      (pastePureRefFromCursor_execute host0 ctx0).collection_objects =
        ctx0.collection_objects ++ [r2] ∧
      r2.empty_display_type = "IMAGE" ∧ r2.scale = ⟨2.0, 2.0, 1.0⟩ ∧ r2.selected = true ∧
      (pastePureRefFromCursor_execute host0 ctx0).view_layer_active = some r2.name ∧
      r2 ∈ (pastePureRefFromCursor_execute host0 ctx0).collection_objects :=
  C10_created_object_invariants host0 ctx0 "PNG" "clipboard_image.png" rfl rfl rfl rfl

/-- C6: with a scene camera, get_camera_facing_position returns the
camera world location plus distance times the normalized forward (-Z)
axis of the camera; when that forward vector is nonzero and the distance
nonnegative the returned position is exactly distance units from the
camera location; with no scene camera it returns position (0,0,0) and
rotation (0,0,0). -/
theorem C6_camera_position (ctx : BContext) (distance : ℝ) :
    (∀ cam, ctx.scene.camera = some cam →
      (get_camera_facing_position ctx distance).1 =
        Mat4.translation cam.matrix_world +
          (((Mat4.to_3x3 cam.matrix_world).mulVec ⟨0, 0, -1⟩).normalized).smul distance ∧
      ((Mat4.to_3x3 cam.matrix_world).mulVec ⟨0, 0, -1⟩ ≠ Vec3.zero → 0 ≤ distance →
        ((get_camera_facing_position ctx distance).1 -
            Mat4.translation cam.matrix_world).norm = distance)) ∧
    (ctx.scene.camera = none →
      get_camera_facing_position ctx distance = (⟨0, 0, 0⟩, ⟨0, 0, 0⟩)) := by
  constructor
  · intro cam hcam
    constructor
    · unfold get_camera_facing_position
      rw [hcam]
      rfl
    · intro hf hd0
      unfold get_camera_facing_position
      rw [hcam]
      show (camera_facing_pos cam.matrix_world distance -
        Mat4.translation cam.matrix_world).norm = distance
      have hf1 : (camera_forward cam.matrix_world).dot (camera_forward cam.matrix_world) = 1 :=
        Vec3.normalized_dot_self _ hf
      set f := camera_forward cam.matrix_world with hfdef
      unfold camera_facing_pos
      rw [← hfdef]
      have hsub : Mat4.translation cam.matrix_world + f.smul distance -
          Mat4.translation cam.matrix_world = f.smul distance := by
        show Vec3.sub (Vec3.add _ _) _ = _
        simp only [Vec3.sub, Vec3.add, Vec3.smul, Vec3.mk.injEq]
        refine ⟨by ring, by ring, by ring⟩
      rw [hsub]
      simp only [Vec3.dot] at hf1
      unfold Vec3.norm Vec3.smul Vec3.dot
      have harg : f.x * distance * (f.x * distance) + f.y * distance * (f.y * distance) +
          f.z * distance * (f.z * distance) = distance ^ 2 := by
        linear_combination distance ^ 2 * hf1
      rw [harg, Real.sqrt_sq hd0]
  · intro hcam
    unfold get_camera_facing_position
    rw [hcam]

/-- Witness for C6_camera_position: on ctx0 the camera sits at (100,0,0)
with identity rotation and the position at distance 5 is five units away
from the camera. -/
theorem C6_camera_position_witness :
    (get_camera_facing_position ctx0 5).1 =
      Mat4.translation M_at100 +
        (((Mat4.to_3x3 M_at100).mulVec ⟨0, 0, -1⟩).normalized).smul 5 ∧
    ((get_camera_facing_position ctx0 5).1 - Mat4.translation M_at100).norm = 5 := by
  have h := (C6_camera_position ctx0 5).1 ⟨M_at100⟩ rfl
  refine ⟨h.1, h.2 ?_ (by norm_num)⟩
  have hto : Mat4.to_3x3 M_at100 = ⟨⟨1, 0, 0⟩, ⟨0, 1, 0⟩, ⟨0, 0, 1⟩⟩ := rfl
  rw [hto]
  intro hcontra
  simp only [Mat3.mulVec, Vec3.dot, Vec3.zero, Vec3.mk.injEq] at hcontra
  norm_num at hcontra
